import Mathlib

/-!
Verification of the 2D sprite/quad batching pass
(`amethyst_renderer/src/pass/flat2d/interleaved.rs`).

The scalar type of the renderer (`N : Real`, instantiated at `f32`/`f64`)
is embedded as `ℚ`: the pass only multiplies, adds and negates scalars, so
the algebra is faithful. Asset handles are embedded as their stable `id()`
(a natural number); asset storages are association lists from ids to
loaded resources, with `get` returning `Option` exactly like
`AssetStorage::get`. A `Transform` is represented by the 4×4 global matrix
that `encode` reads via `global_matrix()`. Rust's stable `sort_by` is
modelled by `List.insertionSort`, which is stable for a total preorder and
therefore extensionally equal to any stable sort on the same key.
Panicking branches (`expect`, slice indexing) are modelled by `Option`
with `none` meaning the panic was reached; GPU side effects are reified
into an `EncodeOutput` value (whether the view args were set, and the
list of emitted draw calls with their uploaded instance buffers).
-/

namespace Flat2D

/-- The scalar field of the renderer (`N : Real`). -/
abbrev K := ℚ

/-- A 4-component vector (`nalgebra::Vector4`). -/
structure Vec4 where
  x : K
  y : K
  z : K
  w : K
deriving DecidableEq, Repr

/-- Vector-scalar multiplication (`Vector4 * scalar`). -/
def Vec4.smul (v : Vec4) (s : K) : Vec4 :=
  ⟨v.x * s, v.y * s, v.z * s, v.w * s⟩

/-- A 4×4 matrix (`nalgebra::Matrix4`), row-major fields `mRC`. -/
structure Mat4 where
  m00 : K
  m01 : K
  m02 : K
  m03 : K
  m10 : K
  m11 : K
  m12 : K
  m13 : K
  m20 : K
  m21 : K
  m22 : K
  m23 : K
  m30 : K
  m31 : K
  m32 : K
  m33 : K
deriving DecidableEq, Repr

/-- `matrix.column(0)`: the first column. -/
def Mat4.column0 (m : Mat4) : Vec4 :=
  ⟨m.m00, m.m10, m.m20, m.m30⟩

/-- `matrix.column(1)`: the second column. -/
def Mat4.column1 (m : Mat4) : Vec4 :=
  ⟨m.m01, m.m11, m.m21, m.m31⟩

/-- Matrix-vector product `matrix * Vector4`. -/
def Mat4.mulVec4 (m : Mat4) (v : Vec4) : Vec4 :=
  ⟨m.m00 * v.x + m.m01 * v.y + m.m02 * v.z + m.m03 * v.w,
   m.m10 * v.x + m.m11 * v.y + m.m12 * v.z + m.m13 * v.w,
   m.m20 * v.x + m.m21 * v.y + m.m22 * v.z + m.m23 * v.w,
   m.m30 * v.x + m.m31 * v.y + m.m32 * v.z + m.m33 * v.w⟩

/-- The identity matrix (default `Transform` global matrix). -/
def Mat4.identity : Mat4 :=
  ⟨1, 0, 0, 0, 0, 1, 0, 0, 0, 0, 1, 0, 0, 0, 0, 1⟩

/-- Normalized UV rectangle of one sprite (`Sprite::tex_coords`). -/
structure TexCoords where
  left : K
  right : K
  bottom : K
  top : K
deriving DecidableEq, Repr

/-- One sprite rectangle inside a sprite sheet (`sprite::Sprite`). -/
structure Sprite where
  width : K
  height : K
  offsets : K × K
  tex_coords : TexCoords
deriving DecidableEq, Repr

/-- A sprite-sheet asset: texture handle id plus the sprite list. -/
structure SpriteSheet where
  texture : Nat
  sprites : List Sprite
deriving DecidableEq, Repr

/-- `SpriteRender` component: a sprite-sheet handle id and a sprite index. -/
structure SpriteRender where
  sprite_sheet : Nat
  sprite_number : Nat
deriving DecidableEq, Repr

/-- The `Flipped` component. -/
inductive Flipped where
  | None
  | Horizontal
  | Vertical
  | Both
deriving DecidableEq, Repr

/-- The `Rgba` tint component; `Rgba(f32, f32, f32, f32)`. -/
structure Rgba where
  r : K
  g : K
  b : K
  a : K
deriving DecidableEq, Repr

/-- `Rgba::WHITE`. -/
def Rgba.WHITE : Rgba := ⟨1, 1, 1, 1⟩

/-- A loaded texture resource; `size()` returns pixel dimensions. -/
structure Texture where
  size : Nat × Nat
deriving DecidableEq, Repr

/-- `AssetStorage<A>`: loaded assets keyed by handle id. -/
def AssetStorage (α : Type) : Type := List (Nat × α)

/-- `AssetStorage::get`: `some` when loaded, `none` when not yet loaded. -/
def AssetStorage.get (s : AssetStorage α) (h : Nat) : Option α :=
  List.lookup h s

/-- `TextureDrawData`: one collected quad record (Sprite or Image). -/
inductive TextureDrawData where
  | Sprite (texture_handle : Nat) (render : SpriteRender)
      (flipped : Option Flipped) (rgba : Option Rgba) (transform : Mat4)
  | Image (texture_handle : Nat) (transform : Mat4)
      (flipped : Option Flipped) (rgba : Option Rgba)
      (width : Nat) (height : Nat)
deriving DecidableEq, Repr

/-- `TextureDrawData::texture_handle`. -/
def TextureDrawData.texture_handle : TextureDrawData → Nat
  | .Sprite th _ _ _ _ => th
  | .Image th _ _ _ _ _ => th

/-- `TextureDrawData::tex_id`: the handle's stable id. -/
def TextureDrawData.tex_id (d : TextureDrawData) : Nat :=
  d.texture_handle

/-- `TextureDrawData::flipped`. -/
def TextureDrawData.flipped : TextureDrawData → Option Flipped
  | .Sprite _ _ f _ _ => f
  | .Image _ _ f _ _ _ => f

/-- Whether a record is the `Sprite` variant. -/
def TextureDrawData.isSpriteRecord : TextureDrawData → Bool
  | .Sprite _ _ _ _ _ => true
  | .Image _ _ _ _ _ _ => false

/-- Whether a record is the `Image` variant. -/
def TextureDrawData.isImageRecord : TextureDrawData → Bool
  | .Sprite _ _ _ _ _ => false
  | .Image _ _ _ _ _ _ => true

/-- `TextureBatch`: the per-frame ordered sequence of quad records. -/
structure TextureBatch where
  textures : List TextureDrawData
deriving DecidableEq, Repr

/-- The empty batch (`TextureBatch::default`). -/
def TextureBatch.empty : TextureBatch := ⟨[]⟩

/-- `TextureBatch::add_image`: skip on missing transform or unloaded
texture, otherwise push one `Image` record carrying the texture's pixel
dimensions. -/
def TextureBatch.add_image (b : TextureBatch) (texture_handle : Nat)
    (transform : Option Mat4) (flipped : Option Flipped) (rgba : Option Rgba)
    (tex_storage : AssetStorage Texture) : TextureBatch :=
  match transform with
  | none => b
  | some t =>
    match tex_storage.get texture_handle with
    | none => b
    | some tex =>
      ⟨b.textures ++
        [.Image texture_handle t flipped rgba tex.size.1 tex.size.2]⟩

/-- `TextureBatch::add_sprite`: skip on missing transform, unloaded
sprite sheet, or unloaded sheet texture; otherwise push one `Sprite`
record holding the sheet's texture handle. -/
def TextureBatch.add_sprite (b : TextureBatch) (sprite_render : SpriteRender)
    (transform : Option Mat4) (flipped : Option Flipped) (rgba : Option Rgba)
    (sprite_sheet_storage : AssetStorage SpriteSheet)
    (tex_storage : AssetStorage Texture) : TextureBatch :=
  match transform with
  | none => b
  | some t =>
    match sprite_sheet_storage.get sprite_render.sprite_sheet with
    | none => b
    | some sprite_sheet =>
      match tex_storage.get sprite_sheet.texture with
      | none => b
      | some _ =>
        ⟨b.textures ++
          [.Sprite sprite_sheet.texture sprite_render flipped rgba t]⟩

/-- `TextureBatch::sort`: stable sort by texture id only
(`sort_by(|a, b| a.tex_id().cmp(&b.tex_id()))`). -/
def TextureBatch.sort (b : TextureBatch) : TextureBatch :=
  ⟨b.textures.insertionSort (fun a b => a.tex_id ≤ b.tex_id)⟩

/-- `TextureBatch::reset`: clear all records. -/
def TextureBatch.reset (_b : TextureBatch) : TextureBatch := ⟨[]⟩

/-- Horizontal-flip UV assignment: swap the left/right sources when
`flip_horizontal` is set. -/
def flipSwapLR (flip_horizontal : Bool) (left right : K) : K × K :=
  if flip_horizontal then (right, left) else (left, right)

/-- Vertical-flip UV assignment: swap the bottom/top sources when
`flip_vertical` is set. -/
def flipSwapBT (flip_vertical : Bool) (bottom top : K) : K × K :=
  if flip_vertical then (top, bottom) else (bottom, top)

/-- One encoded instance (the `SpriteInstance` payload before packing). -/
structure InstanceEntry where
  dir_x : Vec4
  dir_y : Vec4
  pos : Vec4
  uv_left : K
  uv_right : K
  uv_bottom : K
  uv_top : K
  rgba : Rgba
deriving DecidableEq, Repr

/-- The 15 packed scalars pushed into `instance_data` per instance. -/
def InstanceEntry.flatten (e : InstanceEntry) : List K :=
  [e.dir_x.x, e.dir_x.y, e.dir_y.x, e.dir_y.y, e.pos.x, e.pos.y,
   e.uv_left, e.uv_right, e.uv_bottom, e.uv_top, e.pos.z,
   e.rgba.r, e.rgba.g, e.rgba.b, e.rgba.a]

/-- The per-quad body of the `encode` loop: texture lookup (`expect`),
flip decoding, the Sprite/Image match computing UVs, basis vectors and
anchor position, and the tint default. `none` means a panicking branch
(failed `expect` or out-of-range sprite index) was reached. -/
def encodeQuad (sprite_sheet_storage : AssetStorage SpriteSheet)
    (tex_storage : AssetStorage Texture) (quad : TextureDrawData) :
    Option InstanceEntry :=
  match tex_storage.get quad.texture_handle with
  | none => none
  | some _texture =>
    let fh : Bool × Bool :=
      match quad.flipped with
      | some Flipped.Horizontal => (true, false)
      | some Flipped.Vertical => (false, true)
      | some Flipped.Both => (true, true)
      | _ => (false, false)
    let flip_horizontal := fh.1
    let flip_vertical := fh.2
    match quad with
    | .Sprite _ render _ rgba transform =>
      match sprite_sheet_storage.get render.sprite_sheet with
      | none => none
      | some sprite_sheet =>
        match sprite_sheet.sprites[render.sprite_number]? with
        | none => none
        | some sprite_data =>
          let tex_coords := sprite_data.tex_coords
          let uvlr := flipSwapLR flip_horizontal tex_coords.left tex_coords.right
          let uvbt := flipSwapBT flip_vertical tex_coords.bottom tex_coords.top
          let global_matrix := transform
          let dir_x := global_matrix.column0.smul sprite_data.width
          let dir_y := global_matrix.column1.smul sprite_data.height
          let pos := global_matrix.mulVec4
            ⟨-sprite_data.offsets.1, -sprite_data.offsets.2, 0, 1⟩
          some ⟨dir_x, dir_y, pos, uvlr.1, uvlr.2, uvbt.1, uvbt.2,
            rgba.getD Rgba.WHITE⟩
    | .Image _ transform _ rgba width height =>
      let uvlr := flipSwapLR flip_horizontal 0 1
      let uvbt := flipSwapBT flip_vertical 0 1
      let global_matrix := transform
      let dir_x := global_matrix.column0.smul (width : K)
      let dir_y := global_matrix.column1.smul (height : K)
      let pos := global_matrix.mulVec4 ⟨1, 1, 0, 1⟩
      some ⟨dir_x, dir_y, pos, uvlr.1, uvlr.2, uvbt.1, uvbt.2,
        rgba.getD Rgba.WHITE⟩

/-- One emitted draw call: bound texture id, the uploaded instance
buffer, and the instanced count (`Slice.instances`). -/
structure DrawCall where
  texId : Nat
  instance_data : List K
  num_instances : Nat
deriving DecidableEq, Repr

/-- The flush condition: last quad, or the next quad uses a different
texture id. -/
def needFlush (quad : TextureDrawData) : List TextureDrawData → Bool
  | [] => true
  | next :: _ => next.tex_id != quad.tex_id

/-- The `encode` loop over the batch: accumulate flattened instance data
and the instance count; on a flush emit one draw call and clear the
accumulator. `none` models a panic inside the loop. -/
def encodeLoop (sprite_sheet_storage : AssetStorage SpriteSheet)
    (tex_storage : AssetStorage Texture) :
    List TextureDrawData → List K → Nat → Option (List DrawCall)
  | [], _, _ => some []
  | quad :: rest, instance_data, num_instances =>
    match encodeQuad sprite_sheet_storage tex_storage quad with
    | none => none
    | some entry =>
      let instance_data2 := instance_data ++ entry.flatten
      let num_instances2 := num_instances + 1
      if needFlush quad rest then
        match encodeLoop sprite_sheet_storage tex_storage rest [] 0 with
        | none => none
        | some calls =>
          some (⟨quad.tex_id, instance_data2, num_instances2⟩ :: calls)
      else
        encodeLoop sprite_sheet_storage tex_storage rest instance_data2
          num_instances2

/-- The reified effects of `TextureBatch::encode`: whether the view-args
constant buffer was set, and the emitted draw calls in order. -/
structure EncodeOutput where
  viewArgsSet : Bool
  draws : List DrawCall
deriving DecidableEq, Repr

/-- `TextureBatch::encode`: short-circuit on an empty batch (no view-args
setup, no draws); otherwise set the view args and run the loop. -/
def TextureBatch.encode (b : TextureBatch)
    (sprite_sheet_storage : AssetStorage SpriteSheet)
    (tex_storage : AssetStorage Texture) : Option EncodeOutput :=
  if b.textures.isEmpty then some ⟨false, []⟩
  else
    match encodeLoop sprite_sheet_storage tex_storage b.textures [] 0 with
    | none => none
    | some calls => some ⟨true, calls⟩

/-- The per-entity component view seen by `DrawFlat2D::apply`. -/
structure Entity where
  sprite_render : Option SpriteRender
  transform : Option Mat4
  texture_handle : Option Nat
  flipped : Option Flipped
  rgba : Option Rgba
  hidden : Bool
  hidden_prop : Bool
  mesh : Bool
deriving DecidableEq, Repr

/-- `SpriteVisibility`: the unordered opaque subset and the explicitly
ordered (transparency) subset supplied by the visibility system. -/
structure SpriteVisibility where
  visible_unordered : List Entity
  visible_ordered : List Entity
deriving DecidableEq, Repr

/-- One iteration of the no-visibility sprite join:
`(&sprite_render, &transform, flipped.maybe(), rgba.maybe(), !&hidden, !&hidden_prop)`. -/
def spriteStepNoVis (sheets : AssetStorage SpriteSheet)
    (texs : AssetStorage Texture) (b : TextureBatch) (e : Entity) :
    TextureBatch :=
  match e.sprite_render, e.transform with
  | some sr, some t =>
    if e.hidden || e.hidden_prop then b
    else b.add_sprite sr (some t) e.flipped e.rgba sheets texs
  | _, _ => b

/-- One iteration of the no-visibility image join:
`(&texture_handle, &transform, ..., !&hidden, !&hidden_prop, !&mesh)`. -/
def imageStepNoVis (texs : AssetStorage Texture) (b : TextureBatch)
    (e : Entity) : TextureBatch :=
  match e.texture_handle, e.transform with
  | some th, some t =>
    if e.hidden || e.hidden_prop || e.mesh then b
    else b.add_image th (some t) e.flipped e.rgba texs
  | _, _ => b

/-- One iteration of the visibility-unordered sprite join
(`&visibility.visible_unordered`; no hidden filters there). -/
def spriteStepVis (sheets : AssetStorage SpriteSheet)
    (texs : AssetStorage Texture) (b : TextureBatch) (e : Entity) :
    TextureBatch :=
  match e.sprite_render, e.transform with
  | some sr, some t => b.add_sprite sr (some t) e.flipped e.rgba sheets texs
  | _, _ => b

/-- One iteration of the visibility-unordered image join
(`&visibility.visible_unordered, !&mesh`). -/
def imageStepVis (texs : AssetStorage Texture) (b : TextureBatch)
    (e : Entity) : TextureBatch :=
  match e.texture_handle, e.transform with
  | some th, some t =>
    if e.mesh then b else b.add_image th (some t) e.flipped e.rgba texs
  | _, _ => b

/-- One iteration over `visibility.visible_ordered`: a `SpriteRender`
component takes precedence; otherwise a raw texture handle is used; the
optional component lookups are passed through unchecked. -/
def orderedStep (sheets : AssetStorage SpriteSheet)
    (texs : AssetStorage Texture) (b : TextureBatch) (e : Entity) :
    TextureBatch :=
  match e.sprite_render with
  | some sr => b.add_sprite sr e.transform e.flipped e.rgba sheets texs
  | none =>
    match e.texture_handle with
    | some th => b.add_image th e.transform e.flipped e.rgba texs
    | none => b

/-- The no-visibility sprite collection loop. -/
def collectSpritesNoVis (sheets : AssetStorage SpriteSheet)
    (texs : AssetStorage Texture) (b : TextureBatch) (es : List Entity) :
    TextureBatch :=
  es.foldl (spriteStepNoVis sheets texs) b

/-- The no-visibility image collection loop. -/
def collectImagesNoVis (texs : AssetStorage Texture) (b : TextureBatch)
    (es : List Entity) : TextureBatch :=
  es.foldl (imageStepNoVis texs) b

/-- The visibility-unordered sprite collection loop. -/
def collectSpritesVis (sheets : AssetStorage SpriteSheet)
    (texs : AssetStorage Texture) (b : TextureBatch) (es : List Entity) :
    TextureBatch :=
  es.foldl (spriteStepVis sheets texs) b

/-- The visibility-unordered image collection loop. -/
def collectImagesVis (texs : AssetStorage Texture) (b : TextureBatch)
    (es : List Entity) : TextureBatch :=
  es.foldl (imageStepVis texs) b

/-- The loop over `visibility.visible_ordered`. -/
def collectOrderedVis (sheets : AssetStorage SpriteSheet)
    (texs : AssetStorage Texture) (b : TextureBatch) (es : List Entity) :
    TextureBatch :=
  es.foldl (orderedStep sheets texs) b

/-- The batch produced by the visibility-unordered collection followed by
the texture-id sort (`apply`, `Some(visibility)` arm, before the ordered
loop). -/
def unorderedVisBatch (sheets : AssetStorage SpriteSheet)
    (texs : AssetStorage Texture) (es : List Entity) : TextureBatch :=
  (collectImagesVis texs
    (collectSpritesVis sheets texs TextureBatch.empty es) es).sort

/-- The collection phase of `DrawFlat2D::apply`: build the batch that
`encode` will consume. `none` visibility: sprite join, image join, sort.
`some` visibility: unordered joins, sort, then the ordered loop. -/
def applyCollect (sheets : AssetStorage SpriteSheet)
    (texs : AssetStorage Texture) (all : List Entity)
    (visibility : Option SpriteVisibility) : TextureBatch :=
  match visibility with
  | none =>
    (collectImagesNoVis texs
      (collectSpritesNoVis sheets texs TextureBatch.empty all) all).sort
  | some v =>
    collectOrderedVis sheets texs
      (unorderedVisBatch sheets texs v.visible_unordered) v.visible_ordered

/-- `DrawFlat2D::apply`: collect, encode, reset. Returns the reified
encode effects and the batch left for the next frame. -/
def DrawFlat2D_apply (sheets : AssetStorage SpriteSheet)
    (texs : AssetStorage Texture) (all : List Entity)
    (visibility : Option SpriteVisibility) :
    Option EncodeOutput × TextureBatch :=
  let b := applyCollect sheets texs all visibility
  (b.encode sheets texs, b.reset)

/-- The record (if any) that one `visible_ordered` entity contributes:
sprite precedence, then the collector's own skip conditions. -/
def orderedRecord (sheets : AssetStorage SpriteSheet)
    (texs : AssetStorage Texture) (e : Entity) : Option TextureDrawData :=
  match e.sprite_render with
  | some sr =>
    match e.transform with
    | none => none
    | some t =>
      match sheets.get sr.sprite_sheet with
      | none => none
      | some sheet =>
        match texs.get sheet.texture with
        | none => none
        | some _ => some (.Sprite sheet.texture sr e.flipped e.rgba t)
  | none =>
    match e.texture_handle with
    | some th =>
      match e.transform with
      | none => none
      | some t =>
        match texs.get th with
        | none => none
        | some tex => some (.Image th t e.flipped e.rgba tex.size.1 tex.size.2)
    | none => none

/-- The collector's record invariant, plus sprite-index validity: the
texture is loaded, and for a `Sprite` record the sheet is loaded and the
sprite index is within its sprite list. -/
def recordValid (sheets : AssetStorage SpriteSheet)
    (texs : AssetStorage Texture) : TextureDrawData → Bool
  | .Sprite th sr _ _ _ =>
    (texs.get th).isSome &&
      (match sheets.get sr.sprite_sheet with
       | some sheet => decide (sr.sprite_number < sheet.sprites.length)
       | none => false)
  | .Image th _ _ _ _ _ => (texs.get th).isSome

/-- Run-length decomposition of a texture-id sequence into maximal
consecutive runs, starting with `n` pending instances of the current
run: the emitter's flush structure, stated purely on id lists. -/
def runsFrom : List Nat → Nat → List (Nat × Nat)
  | [], _ => []
  | [x], n => [(x, n + 1)]
  | x :: y :: rest, n =>
    if y = x then runsFrom (y :: rest) (n + 1)
    else (x, n + 1) :: runsFrom (y :: rest) 0

/-- Maximal consecutive same-id runs of a texture-id sequence, each with
its length. -/
def textureRuns (l : List Nat) : List (Nat × Nat) :=
  runsFrom l 0

/-- Fixture: a 4×2 texture under handle id 7. -/
def texW : Texture := ⟨(4, 2)⟩

/-- Fixture: texture storage with ids 7 and 8 loaded. -/
def texStoreW : AssetStorage Texture := [(7, texW), (8, ⟨(16, 16)⟩)]

/-- Fixture: one sprite rectangle. -/
def spriteW : Sprite := ⟨3, 5, (1, 2), ⟨0, 2, 3, 7⟩⟩

/-- Fixture: a sprite sheet over texture 7 with one sprite. -/
def sheetW : SpriteSheet := ⟨7, [spriteW]⟩

/-- Fixture: sprite-sheet storage with id 9 loaded. -/
def sheetStoreW : AssetStorage SpriteSheet := [(9, sheetW)]

/-- Fixture: a sprite render over sheet 9, sprite 0. -/
def srW : SpriteRender := ⟨9, 0⟩

/-- Fixture: a collected Sprite record on texture 7. -/
def recS : TextureDrawData := .Sprite 7 srW none none Mat4.identity

/-- Fixture: a collected Image record on texture 8. -/
def recI : TextureDrawData := .Image 8 Mat4.identity none none 16 16

/-- Fixture: a collected Image record on texture 7. -/
def recI7 : TextureDrawData := .Image 7 Mat4.identity none none 4 2

/-- Fixture: a two-record batch sharing texture 7. -/
def batchW : TextureBatch := ⟨[recS, recI7]⟩

/-- Fixture: a mesh-marked entity with a raw texture handle only. -/
def meshEntityW : Entity :=
  ⟨none, some Mat4.identity, some 7, none, none, false, false, true⟩

/-- Fixture: an entity carrying both a sprite render and a texture handle. -/
def dualEntityW : Entity :=
  ⟨some srW, some Mat4.identity, some 8, none, none, false, false, false⟩

/-- A valid record never reaches a panicking branch of the per-quad
encoding. -/
theorem encodeQuad_isSome_of_valid (sheets : AssetStorage SpriteSheet)
    (texs : AssetStorage Texture) (q : TextureDrawData)
    (h : recordValid sheets texs q = true) :
    (encodeQuad sheets texs q).isSome = true := by
  cases q with
  | Sprite th sr fl rg tr =>
    simp only [recordValid, Bool.and_eq_true] at h
    obtain ⟨h1, h2⟩ := h
    obtain ⟨tex, htex⟩ := Option.isSome_iff_exists.mp h1
    rcases hsheet : sheets.get sr.sprite_sheet with _ | sheet
    · rw [hsheet] at h2; simp at h2
    · rw [hsheet] at h2
      simp only [decide_eq_true_eq] at h2
      have hsp := List.getElem?_eq_getElem h2
      simp [encodeQuad, TextureDrawData.texture_handle, htex, hsheet, hsp]
  | Image th tr fl rg w hgt =>
    simp only [recordValid] at h
    obtain ⟨tex, htex⟩ := Option.isSome_iff_exists.mp h
    simp [encodeQuad, TextureDrawData.texture_handle, htex]

/-- Unfolding of one loop iteration that flushes. -/
theorem encodeLoop_cons_flush (sheets : AssetStorage SpriteSheet)
    (texs : AssetStorage Texture) (quad : TextureDrawData)
    (rest : List TextureDrawData) (acc : List K) (n : Nat)
    (entry : InstanceEntry)
    (he : encodeQuad sheets texs quad = some entry)
    (hnf : needFlush quad rest = true) :
    encodeLoop sheets texs (quad :: rest) acc n =
      match encodeLoop sheets texs rest [] 0 with
      | none => none
      | some calls =>
        some (⟨quad.tex_id, acc ++ entry.flatten, n + 1⟩ :: calls) := by
  simp [encodeLoop, he, hnf]

/-- Unfolding of one loop iteration that keeps accumulating. -/
theorem encodeLoop_cons_noflush (sheets : AssetStorage SpriteSheet)
    (texs : AssetStorage Texture) (quad : TextureDrawData)
    (rest : List TextureDrawData) (acc : List K) (n : Nat)
    (entry : InstanceEntry)
    (he : encodeQuad sheets texs quad = some entry)
    (hnf : needFlush quad rest = false) :
    encodeLoop sheets texs (quad :: rest) acc n =
      encodeLoop sheets texs rest (acc ++ entry.flatten) (n + 1) := by
  simp [encodeLoop, he, hnf]

/-- The loop invariant of the emitter: when every quad encodes, the loop
succeeds and the (texture id, instance count) trace of its draw calls is
the run decomposition of the remaining id sequence, seeded with the
instances already accumulated. -/
theorem encodeLoop_runs (sheets : AssetStorage SpriteSheet)
    (texs : AssetStorage Texture) :
    ∀ (l : List TextureDrawData) (acc : List K) (n : Nat),
      (∀ q ∈ l, (encodeQuad sheets texs q).isSome = true) →
      ∃ out, encodeLoop sheets texs l acc n = some out ∧
        out.map (fun d => (d.texId, d.num_instances)) =
          runsFrom (l.map TextureDrawData.tex_id) n := by
  intro l
  induction l with
  | nil => exact fun acc n _ => ⟨[], rfl, rfl⟩
  | cons quad rest ih =>
    intro acc n h
    obtain ⟨entry, he⟩ :=
      Option.isSome_iff_exists.mp (h quad (List.mem_cons_self _ _))
    have hrest : ∀ q ∈ rest, (encodeQuad sheets texs q).isSome = true :=
      fun q hq => h q (List.mem_cons_of_mem _ hq)
    cases rest with
    | nil =>
      refine ⟨[⟨quad.tex_id, acc ++ entry.flatten, n + 1⟩], ?_, ?_⟩
      · rw [encodeLoop_cons_flush sheets texs quad [] acc n entry he rfl]
        rfl
      · simp [runsFrom]
    | cons q2 rest2 =>
      by_cases hid : q2.tex_id = quad.tex_id
      · have hnf : needFlush quad (q2 :: rest2) = false := by
          simp [needFlush, hid]
        obtain ⟨out, ho, hmap⟩ :=
          ih (acc ++ entry.flatten) (n + 1) hrest
        refine ⟨out, ?_, ?_⟩
        · rw [encodeLoop_cons_noflush sheets texs quad _ acc n entry he hnf]
          exact ho
        · simpa [runsFrom, hid] using hmap
      · have hnf : needFlush quad (q2 :: rest2) = true := by
          simp [needFlush, hid]
        obtain ⟨out, ho, hmap⟩ := ih [] 0 hrest
        refine ⟨⟨quad.tex_id, acc ++ entry.flatten, n + 1⟩ :: out, ?_, ?_⟩
        · rw [encodeLoop_cons_flush sheets texs quad _ acc n entry he hnf, ho]
        · simp [runsFrom, hid, hmap]

/-- A constant id sequence decomposes into one run. -/
theorem runsFrom_const (t : Nat) :
    ∀ (l : List Nat) (n : Nat), l ≠ [] → (∀ x ∈ l, x = t) →
      runsFrom l n = [(t, n + l.length)] := by
  intro l
  induction l with
  | nil => intro n hne _; exact absurd rfl hne
  | cons x rest ih =>
    intro n _ hall
    have hx : x = t := hall x (List.mem_cons_self _ _)
    cases rest with
    | nil => simp [runsFrom, hx]
    | cons y rest2 =>
      have hy : y = t := hall y (by simp)
      have hrec : runsFrom (y :: rest2) (n + 1) = [(t, n + 1 + (rest2.length + 1))] := by
        have := ih (n + 1) (by simp) (fun z hz => hall z (List.mem_cons_of_mem _ hz))
        simpa using this
      rw [hy] at hrec
      rw [hx, hy]
      have hstep : runsFrom (t :: t :: rest2) n = runsFrom (t :: rest2) (n + 1) := by
        simp [runsFrom]
      rw [hstep, hrec]
      simp only [List.cons.injEq, Prod.mk.injEq, List.length_cons,
        eq_self_iff_true, true_and, and_true]
      omega

/-- An adjacent-distinct id sequence decomposes into singleton runs. -/
theorem runsFrom_chain_ne :
    ∀ l : List Nat, l.Chain' (fun a b => a ≠ b) →
      runsFrom l 0 = l.map (fun t => (t, 1)) := by
  intro l
  induction l with
  | nil => intro _; rfl
  | cons x rest ih =>
    intro hc
    cases rest with
    | nil => simp [runsFrom]
    | cons y rest2 =>
      rw [List.chain'_cons] at hc
      have hxy : ¬ y = x := fun h => hc.1 h.symm
      simp only [runsFrom, if_neg hxy, List.map_cons]
      exact congrArg _ (ih hc.2)

/-- A single `visible_ordered` iteration appends exactly the record that
`orderedRecord` describes (possibly none). -/
theorem orderedStep_textures (sheets : AssetStorage SpriteSheet)
    (texs : AssetStorage Texture) (b : TextureBatch) (e : Entity) :
    (orderedStep sheets texs b e).textures =
      b.textures ++ (orderedRecord sheets texs e).toList := by
  rcases e with ⟨osr, otr, oth, fl, rg, hid, hidp, mesh⟩
  rcases osr with _ | sr
  · rcases oth with _ | th
    · simp [orderedStep, orderedRecord]
    · rcases otr with _ | t
      · simp [orderedStep, orderedRecord, TextureBatch.add_image]
      · rcases htex : texs.get th with _ | tex
        · simp [orderedStep, orderedRecord, TextureBatch.add_image, htex]
        · simp [orderedStep, orderedRecord, TextureBatch.add_image, htex]
  · rcases otr with _ | t
    · simp [orderedStep, orderedRecord, TextureBatch.add_sprite]
    · rcases hsheet : sheets.get sr.sprite_sheet with _ | sheet
      · simp [orderedStep, orderedRecord, TextureBatch.add_sprite, hsheet]
      · rcases htex : texs.get sheet.texture with _ | tex
        · simp [orderedStep, orderedRecord, TextureBatch.add_sprite, hsheet,
            htex]
        · simp [orderedStep, orderedRecord, TextureBatch.add_sprite, hsheet,
            htex]

/-- The ordered loop appends exactly the records of its entities, in the
supplied order. -/
theorem collectOrderedVis_textures (sheets : AssetStorage SpriteSheet)
    (texs : AssetStorage Texture) :
    ∀ (es : List Entity) (b : TextureBatch),
      (collectOrderedVis sheets texs b es).textures =
        b.textures ++ es.filterMap (orderedRecord sheets texs) := by
  intro es
  induction es with
  | nil => intro b; simp [collectOrderedVis]
  | cons e rest ih =>
    intro b
    have step := orderedStep_textures sheets texs b e
    calc (collectOrderedVis sheets texs b (e :: rest)).textures
        = (collectOrderedVis sheets texs (orderedStep sheets texs b e)
            rest).textures := rfl
      _ = (orderedStep sheets texs b e).textures ++
            rest.filterMap (orderedRecord sheets texs) := ih _
      _ = b.textures ++ (e :: rest).filterMap (orderedRecord sheets texs) := by
          rw [step, List.append_assoc]
          rcases h : orderedRecord sheets texs e with _ | r <;>
            simp [List.filterMap_cons, h]

/-- Mesh-marked entities are skipped by the no-visibility image join. -/
theorem imageStepNoVis_mesh (texs : AssetStorage Texture) (b : TextureBatch)
    (e : Entity) (hm : e.mesh = true) : imageStepNoVis texs b e = b := by
  rcases h1 : e.texture_handle with _ | th <;>
    rcases h2 : e.transform with _ | t <;>
      simp [imageStepNoVis, h1, h2, hm]

/-- Mesh-marked entities are skipped by the visibility-unordered image
join. -/
theorem imageStepVis_mesh (texs : AssetStorage Texture) (b : TextureBatch)
    (e : Entity) (hm : e.mesh = true) : imageStepVis texs b e = b := by
  rcases h1 : e.texture_handle with _ | th <;>
    rcases h2 : e.transform with _ | t <;>
      simp [imageStepVis, h1, h2, hm]

/-- Claim C7: the flip-derived UV edge assignment is an involution:
applying the horizontal-flip left/right swap twice restores the original
left/right assignment, and likewise for the vertical bottom/top swap. -/
theorem flipSwap_involutive :
    ∀ (fh fv : Bool) (l r bt tp : K),
      flipSwapLR fh (flipSwapLR fh l r).1 (flipSwapLR fh l r).2 = (l, r) ∧
      flipSwapBT fv (flipSwapBT fv bt tp).1 (flipSwapBT fv bt tp).2 =
        (bt, tp) := by
  intro fh fv l r bt tp
  cases fh <;> cases fv <;> simp [flipSwapLR, flipSwapBT]

/-- Claim C8: after reset the batch holds zero records, and encoding the
resulting empty batch short-circuits: the view args are never set and
zero draw calls are emitted. -/
theorem reset_clears_and_empty_encode_short_circuits :
    ∀ (b : TextureBatch) (sheets : AssetStorage SpriteSheet)
      (texs : AssetStorage Texture),
      (b.reset).textures = [] ∧
      (b.reset).encode sheets texs = some ⟨false, []⟩ := by
  intro b sheets texs
  exact ⟨rfl, rfl⟩

/-- Claim C4: each collector call either leaves the batch completely
unchanged (missing transform, unloaded texture, or, for sprites,
unloaded sprite sheet or unloaded sheet texture) or appends exactly one
record; in both cases the batch grows by at most one record. -/
theorem collector_skip_or_append :
    ∀ (b : TextureBatch) (th : Nat) (tr : Option Mat4) (fl : Option Flipped)
      (rg : Option Rgba) (sr : SpriteRender)
      (sheets : AssetStorage SpriteSheet) (texs : AssetStorage Texture),
      (tr = none → b.add_image th tr fl rg texs = b) ∧
      (texs.get th = none → b.add_image th tr fl rg texs = b) ∧
      (∀ t tex, tr = some t → texs.get th = some tex →
        (b.add_image th tr fl rg texs).textures =
          b.textures ++ [.Image th t fl rg tex.size.1 tex.size.2]) ∧
      (tr = none → b.add_sprite sr tr fl rg sheets texs = b) ∧
      (sheets.get sr.sprite_sheet = none →
        b.add_sprite sr tr fl rg sheets texs = b) ∧
      (∀ sheet, sheets.get sr.sprite_sheet = some sheet →
        texs.get sheet.texture = none →
        b.add_sprite sr tr fl rg sheets texs = b) ∧
      (∀ t sheet tex, tr = some t →
        sheets.get sr.sprite_sheet = some sheet →
        texs.get sheet.texture = some tex →
        (b.add_sprite sr tr fl rg sheets texs).textures =
          b.textures ++ [.Sprite sheet.texture sr fl rg t]) ∧
      (b.add_image th tr fl rg texs).textures.length ≤
        b.textures.length + 1 ∧
      (b.add_sprite sr tr fl rg sheets texs).textures.length ≤
        b.textures.length + 1 := by
  intro b th tr fl rg sr sheets texs
  refine ⟨?_, ?_, ?_, ?_, ?_, ?_, ?_, ?_, ?_⟩
  · intro h; simp [TextureBatch.add_image, h]
  · intro h
    rcases tr with _ | t
    · simp [TextureBatch.add_image]
    · simp [TextureBatch.add_image, h]
  · intro t tex ht htex; simp [TextureBatch.add_image, ht, htex]
  · intro h; simp [TextureBatch.add_sprite, h]
  · intro h
    rcases tr with _ | t
    · simp [TextureBatch.add_sprite]
    · simp [TextureBatch.add_sprite, h]
  · intro sheet hsheet htex
    rcases tr with _ | t
    · simp [TextureBatch.add_sprite]
    · simp [TextureBatch.add_sprite, hsheet, htex]
  · intro t sheet tex ht hsheet htex
    simp [TextureBatch.add_sprite, ht, hsheet, htex]
  · rcases tr with _ | t
    · simp [TextureBatch.add_image]
    · rcases htex : texs.get th with _ | tex <;>
        simp [TextureBatch.add_image, htex]
  · rcases tr with _ | t
    · simp [TextureBatch.add_sprite]
    · rcases hsheet : sheets.get sr.sprite_sheet with _ | sheet
      · simp [TextureBatch.add_sprite, hsheet]
      · rcases htex : texs.get sheet.texture with _ | tex <;>
          simp [TextureBatch.add_sprite, hsheet, htex]

/-- Witness for C4 at concrete inputs: a missing transform leaves the
batch unchanged; a loaded texture and a loaded sheet each append exactly
one record to the empty batch. -/
theorem collector_skip_or_append_witness :
    TextureBatch.empty.add_image 7 none none none texStoreW =
      TextureBatch.empty ∧
    (TextureBatch.empty.add_image 7 (some Mat4.identity) none none
        texStoreW).textures =
      TextureBatch.empty.textures ++
        [.Image 7 Mat4.identity none none 4 2] ∧
    (TextureBatch.empty.add_sprite srW (some Mat4.identity) none none
        sheetStoreW texStoreW).textures =
      TextureBatch.empty.textures ++
        [.Sprite 7 srW none none Mat4.identity] :=
  ⟨(collector_skip_or_append TextureBatch.empty 7 none none none srW
      sheetStoreW texStoreW).1 rfl,
   (collector_skip_or_append TextureBatch.empty 7 (some Mat4.identity)
      none none srW sheetStoreW texStoreW).2.2.1 Mat4.identity texW rfl
      (by decide),
   (collector_skip_or_append TextureBatch.empty 7 (some Mat4.identity)
      none none srW sheetStoreW texStoreW).2.2.2.2.2.2.1 Mat4.identity
      sheetW texW rfl (by decide) (by decide)⟩

/-- Claim C1: for every non-empty batch of encodable records, the
emitter produces exactly one draw call per maximal run of consecutive
records sharing a texture id, with instance count equal to the run
length; in particular all-one-texture batches give one call of count N
and pairwise-distinct-texture batches give N calls of count 1. -/
theorem encode_drawcalls_are_texture_runs
    (sheets : AssetStorage SpriteSheet) (texs : AssetStorage Texture)
    (b : TextureBatch) (hne : b.textures ≠ [])
    (hok : ∀ q ∈ b.textures, recordValid sheets texs q = true) :
    ∃ out, b.encode sheets texs = some out ∧
      out.draws.map (fun d => (d.texId, d.num_instances)) =
        textureRuns (b.textures.map TextureDrawData.tex_id) ∧
      (∀ t, (∀ q ∈ b.textures, q.tex_id = t) →
        out.draws.map (fun d => (d.texId, d.num_instances)) =
          [(t, b.textures.length)]) ∧
      ((b.textures.map TextureDrawData.tex_id).Pairwise (fun a c => a ≠ c) →
        out.draws.map (fun d => (d.texId, d.num_instances)) =
          (b.textures.map TextureDrawData.tex_id).map (fun t => (t, 1))) := by
  obtain ⟨out, ho, hmap⟩ := encodeLoop_runs sheets texs b.textures [] 0
    (fun q hq => encodeQuad_isSome_of_valid sheets texs q (hok q hq))
  have hE : b.textures.isEmpty = false := by
    cases hb : b.textures with
    | nil => exact absurd hb hne
    | cons x xs => rfl
  refine ⟨⟨true, out⟩, ?_, ?_, ?_, ?_⟩
  · simp [TextureBatch.encode, hE, ho]
  · simpa [textureRuns] using hmap
  · intro t ht
    rw [hmap]
    have hconst := runsFrom_const t (b.textures.map TextureDrawData.tex_id) 0
      (by simpa using hne)
      (by
        intro x hx
        obtain ⟨q, hq, rfl⟩ := List.mem_map.mp hx
        exact ht q hq)
    simpa using hconst
  · intro hp
    rw [hmap]
    exact runsFrom_chain_ne _ hp.chain'

/-- Witness for C1 at a concrete two-record batch sharing texture 7: the
hypotheses hold and the emitter coalesces both records into one draw
call of instance count 2. -/
theorem encode_drawcalls_are_texture_runs_witness :
    batchW.textures ≠ [] ∧
    (∀ q ∈ batchW.textures, recordValid sheetStoreW texStoreW q = true) ∧
    (∃ out, batchW.encode sheetStoreW texStoreW = some out ∧
      out.draws.map (fun d => (d.texId, d.num_instances)) =
        textureRuns (batchW.textures.map TextureDrawData.tex_id) ∧
      (∀ t, (∀ q ∈ batchW.textures, q.tex_id = t) →
        out.draws.map (fun d => (d.texId, d.num_instances)) =
          [(t, batchW.textures.length)]) ∧
      ((batchW.textures.map TextureDrawData.tex_id).Pairwise
          (fun a c => a ≠ c) →
        out.draws.map (fun d => (d.texId, d.num_instances)) =
          (batchW.textures.map TextureDrawData.tex_id).map
            (fun t => (t, 1)))) :=
  ⟨by decide, by decide,
   encode_drawcalls_are_texture_runs sheetStoreW texStoreW batchW
     (by decide) (by decide)⟩

/-- Claim C5: under the collector invariant (textures and sheets of
every record loaded in the same stores) plus in-range sprite indices,
`encode` reaches no panicking branch: every texture lookup, sheet lookup
and sprite-list index succeeds and the whole encode returns a value. -/
theorem encode_no_panic (sheets : AssetStorage SpriteSheet)
    (texs : AssetStorage Texture) (b : TextureBatch)
    (hok : ∀ q ∈ b.textures, recordValid sheets texs q = true) :
    (b.encode sheets texs).isSome = true := by
  rcases hb : b.textures with _ | ⟨q0, rest⟩
  · simp [TextureBatch.encode, hb]
  · have hE : b.textures.isEmpty = false := by rw [hb]; rfl
    obtain ⟨out, ho, _⟩ := encodeLoop_runs sheets texs b.textures [] 0
      (fun q hq => encodeQuad_isSome_of_valid sheets texs q (hok q hq))
    simp [TextureBatch.encode, hE, ho]

/-- Witness for C5: the concrete two-record batch satisfies the
invariant and encodes without reaching a panic. -/
theorem encode_no_panic_witness :
    (∀ q ∈ batchW.textures, recordValid sheetStoreW texStoreW q = true) ∧
    (batchW.encode sheetStoreW texStoreW).isSome = true :=
  ⟨by decide, encode_no_panic sheetStoreW texStoreW batchW (by decide)⟩

/-- Claim C3: for every encoded record, basis vector X is the global
matrix's first column scaled by the pixel width and basis vector Y its
second column scaled by the pixel height; the anchor is the matrix
applied to (-offset_x, -offset_y, 0, 1) for a Sprite record and to
(1, 1, 0, 1) for an Image record. -/
theorem encode_basis_and_anchor :
    (∀ (sheets : AssetStorage SpriteSheet) (texs : AssetStorage Texture)
       (th : Nat) (sr : SpriteRender) (fl : Option Flipped)
       (rg : Option Rgba) (m : Mat4) (sheet : SpriteSheet)
       (sprite : Sprite) (tex : Texture),
      texs.get th = some tex →
      sheets.get sr.sprite_sheet = some sheet →
      sheet.sprites[sr.sprite_number]? = some sprite →
      (encodeQuad sheets texs (.Sprite th sr fl rg m)).map
          (fun e => (e.dir_x, e.dir_y, e.pos)) =
        some (m.column0.smul sprite.width, m.column1.smul sprite.height,
          m.mulVec4 ⟨-sprite.offsets.1, -sprite.offsets.2, 0, 1⟩)) ∧
    (∀ (sheets : AssetStorage SpriteSheet) (texs : AssetStorage Texture)
       (th : Nat) (fl : Option Flipped) (rg : Option Rgba) (m : Mat4)
       (w h : Nat) (tex : Texture),
      texs.get th = some tex →
      (encodeQuad sheets texs (.Image th m fl rg w h)).map
          (fun e => (e.dir_x, e.dir_y, e.pos)) =
        some (m.column0.smul (w : K), m.column1.smul (h : K),
          m.mulVec4 ⟨1, 1, 0, 1⟩)) := by
  constructor
  · intro sheets texs th sr fl rg m sheet sprite tex h1 h2 h3
    simp [encodeQuad, TextureDrawData.texture_handle, h1, h2, h3]
  · intro sheets texs th fl rg m w h tex h1
    simp [encodeQuad, TextureDrawData.texture_handle, h1]

/-- Witness for C3 at concrete records: both the Sprite and the Image
basis/anchor equations hold on the fixture stores. -/
theorem encode_basis_and_anchor_witness :
    (encodeQuad sheetStoreW texStoreW
        (.Sprite 7 srW none none Mat4.identity)).map
        (fun e => (e.dir_x, e.dir_y, e.pos)) =
      some (Mat4.identity.column0.smul spriteW.width,
        Mat4.identity.column1.smul spriteW.height,
        Mat4.identity.mulVec4 ⟨-spriteW.offsets.1, -spriteW.offsets.2, 0, 1⟩) ∧
    (encodeQuad sheetStoreW texStoreW
        (.Image 8 Mat4.identity none none 16 16)).map
        (fun e => (e.dir_x, e.dir_y, e.pos)) =
      some (Mat4.identity.column0.smul (16 : K),
        Mat4.identity.column1.smul (16 : K),
        Mat4.identity.mulVec4 ⟨1, 1, 0, 1⟩) :=
  ⟨encode_basis_and_anchor.1 sheetStoreW texStoreW 7 srW none none
      Mat4.identity sheetW spriteW texW (by decide) (by decide) (by decide),
   encode_basis_and_anchor.2 sheetStoreW texStoreW 8 none none
      Mat4.identity 16 16 ⟨(16, 16)⟩ (by decide)⟩

/-- Claim C6: a record with no flip flag and no tint encodes with its
base UV rectangle unchanged (the sprite's tex_coords, or the unit square
for an Image record) and color (1, 1, 1, 1). -/
theorem encode_noflip_default_tint :
    (∀ (sheets : AssetStorage SpriteSheet) (texs : AssetStorage Texture)
       (th : Nat) (sr : SpriteRender) (m : Mat4) (sheet : SpriteSheet)
       (sprite : Sprite) (tex : Texture),
      texs.get th = some tex →
      sheets.get sr.sprite_sheet = some sheet →
      sheet.sprites[sr.sprite_number]? = some sprite →
      (encodeQuad sheets texs (.Sprite th sr none none m)).map
          (fun e => (e.uv_left, e.uv_right, e.uv_bottom, e.uv_top, e.rgba)) =
        some (sprite.tex_coords.left, sprite.tex_coords.right,
          sprite.tex_coords.bottom, sprite.tex_coords.top, Rgba.WHITE)) ∧
    (∀ (sheets : AssetStorage SpriteSheet) (texs : AssetStorage Texture)
       (th : Nat) (m : Mat4) (w h : Nat) (tex : Texture),
      texs.get th = some tex →
      (encodeQuad sheets texs (.Image th m none none w h)).map
          (fun e => (e.uv_left, e.uv_right, e.uv_bottom, e.uv_top, e.rgba)) =
        some (0, 1, 0, 1, Rgba.WHITE)) := by
  constructor
  · intro sheets texs th sr m sheet sprite tex h1 h2 h3
    simp [encodeQuad, TextureDrawData.texture_handle, TextureDrawData.flipped,
      flipSwapLR, flipSwapBT, h1, h2, h3]
  · intro sheets texs th m w h tex h1
    simp [encodeQuad, TextureDrawData.texture_handle, TextureDrawData.flipped,
      flipSwapLR, flipSwapBT, h1]

/-- Witness for C6 at concrete records: the fixture sprite's UV
rectangle and the unit square come through unchanged with white color. -/
theorem encode_noflip_default_tint_witness :
    (encodeQuad sheetStoreW texStoreW
        (.Sprite 7 srW none none Mat4.identity)).map
        (fun e => (e.uv_left, e.uv_right, e.uv_bottom, e.uv_top, e.rgba)) =
      some (spriteW.tex_coords.left, spriteW.tex_coords.right,
        spriteW.tex_coords.bottom, spriteW.tex_coords.top, Rgba.WHITE) ∧
    (encodeQuad sheetStoreW texStoreW
        (.Image 8 Mat4.identity none none 16 16)).map
        (fun e => (e.uv_left, e.uv_right, e.uv_bottom, e.uv_top, e.rgba)) =
      some (0, 1, 0, 1, Rgba.WHITE) :=
  ⟨encode_noflip_default_tint.1 sheetStoreW texStoreW 7 srW Mat4.identity
      sheetW spriteW texW (by decide) (by decide) (by decide),
   encode_noflip_default_tint.2 sheetStoreW texStoreW 8 Mat4.identity
      16 16 ⟨(16, 16)⟩ (by decide)⟩

/-- Claim C2: with visibility supplied, the final batch is exactly the
texture-id-sorted unordered collection followed by the records produced
from the ordered subset, whose relative order matches the supplied order
(the sort is applied before the ordered subset is appended and never
touches it). -/
theorem visibility_ordered_subset_preserved
    (sheets : AssetStorage SpriteSheet) (texs : AssetStorage Texture)
    (all : List Entity) (v : SpriteVisibility) :
    (applyCollect sheets texs all (some v)).textures =
      (unorderedVisBatch sheets texs v.visible_unordered).textures ++
        v.visible_ordered.filterMap (orderedRecord sheets texs) := by
  simpa [applyCollect] using
    collectOrderedVis_textures sheets texs v.visible_ordered
      (unorderedVisBatch sheets texs v.visible_unordered)

/-- Counterexample to C9 as stated: in the ordered-visibility path the
mesh marker is not checked, so a mesh-marked entity carrying only a raw
texture handle still produces an Image record. -/
theorem mesh_marker_ordered_image_cex :
    meshEntityW.mesh = true ∧
    (applyCollect sheetStoreW texStoreW []
        (some ⟨[], [meshEntityW]⟩)).textures =
      [.Image 7 Mat4.identity none none 4 2] := by
  constructor
  · rfl
  · decide

/-- Claim C9 as amended: the mesh-marker exclusion from raw-image
rendering holds in the two unordered collection paths — mesh-marked
entities are ignored by both image joins, so those paths collect exactly
as if mesh-marked entities were absent — while the ordered-visibility
path applies no mesh filter. -/
theorem mesh_marker_excluded_unordered (texs : AssetStorage Texture) :
    ∀ (es : List Entity) (b : TextureBatch),
      collectImagesNoVis texs b es =
        collectImagesNoVis texs b (es.filter (fun e => !e.mesh)) ∧
      collectImagesVis texs b es =
        collectImagesVis texs b (es.filter (fun e => !e.mesh)) := by
  intro es
  induction es with
  | nil => intro b; exact ⟨rfl, rfl⟩
  | cons e rest ih =>
    intro b
    constructor
    · rcases hm : e.mesh with _ | _
      · simpa [collectImagesNoVis, List.filter_cons, hm] using
          (ih (imageStepNoVis texs b e)).1
      · simpa [collectImagesNoVis, List.filter_cons, hm,
          imageStepNoVis_mesh texs b e hm] using (ih b).1
    · rcases hm : e.mesh with _ | _
      · simpa [collectImagesVis, List.filter_cons, hm] using
          (ih (imageStepVis texs b e)).2
      · simpa [collectImagesVis, List.filter_cons, hm,
          imageStepVis_mesh texs b e hm] using (ih b).2

/-- Claim C10: an entity carrying both a sprite render and a raw texture
handle (with transform, not hidden, no mesh marker, assets loaded)
yields two records — one Sprite, one Image — in the no-visibility path,
but only the Sprite record in the ordered-visibility subset. -/
theorem dual_component_sprite_precedence
    (sheets : AssetStorage SpriteSheet) (texs : AssetStorage Texture)
    (e : Entity) (sr : SpriteRender) (th : Nat) (m : Mat4)
    (sheet : SpriteSheet) (tex : Texture)
    (h1 : e.sprite_render = some sr) (h2 : e.texture_handle = some th)
    (h3 : e.transform = some m) (h4 : e.hidden = false)
    (h5 : e.hidden_prop = false) (h6 : e.mesh = false)
    (h7 : sheets.get sr.sprite_sheet = some sheet)
    (h8 : (texs.get sheet.texture).isSome = true)
    (h9 : texs.get th = some tex) :
    ((applyCollect sheets texs [e] none).textures.length = 2 ∧
     (applyCollect sheets texs [e] none).textures.countP
        TextureDrawData.isSpriteRecord = 1 ∧
     (applyCollect sheets texs [e] none).textures.countP
        TextureDrawData.isImageRecord = 1) ∧
    (applyCollect sheets texs [] (some ⟨[], [e]⟩)).textures =
      [.Sprite sheet.texture sr e.flipped e.rgba m] := by
  obtain ⟨stx, hstx⟩ := Option.isSome_iff_exists.mp h8
  have hpre : (collectImagesNoVis texs
      (collectSpritesNoVis sheets texs TextureBatch.empty [e]) [e]).textures =
      [.Sprite sheet.texture sr e.flipped e.rgba m,
       .Image th m e.flipped e.rgba tex.size.1 tex.size.2] := by
    simp [collectSpritesNoVis, collectImagesNoVis, spriteStepNoVis,
      imageStepNoVis, TextureBatch.add_sprite, TextureBatch.add_image,
      TextureBatch.empty, h1, h2, h3, h4, h5, h6, h7, h9, hstx]
  have happly : (applyCollect sheets texs [e] none).textures =
      List.insertionSort (fun a b => a.tex_id ≤ b.tex_id)
        [.Sprite sheet.texture sr e.flipped e.rgba m,
         .Image th m e.flipped e.rgba tex.size.1 tex.size.2] := by
    simp only [applyCollect, TextureBatch.sort]
    rw [hpre]
  refine ⟨⟨?_, ?_, ?_⟩, ?_⟩
  · rw [happly, (List.perm_insertionSort _ _).length_eq]; rfl
  · rw [happly, (List.perm_insertionSort _ _).countP_eq]
    simp [List.countP_cons, TextureDrawData.isSpriteRecord,
      TextureDrawData.isImageRecord]
  · rw [happly, (List.perm_insertionSort _ _).countP_eq]
    simp [List.countP_cons, TextureDrawData.isSpriteRecord,
      TextureDrawData.isImageRecord]
  · simp [applyCollect, unorderedVisBatch, collectSpritesVis,
      collectImagesVis, TextureBatch.sort, TextureBatch.empty,
      List.insertionSort, collectOrderedVis, orderedStep,
      TextureBatch.add_sprite, h1, h3, h7, hstx]

/-- Witness for C10 at a concrete entity carrying both components, with
all assets loaded in the fixture stores. -/
theorem dual_component_sprite_precedence_witness :
    ((applyCollect sheetStoreW texStoreW [dualEntityW] none).textures.length
        = 2 ∧
     (applyCollect sheetStoreW texStoreW [dualEntityW] none).textures.countP
        TextureDrawData.isSpriteRecord = 1 ∧
     (applyCollect sheetStoreW texStoreW [dualEntityW] none).textures.countP
        TextureDrawData.isImageRecord = 1) ∧
    (applyCollect sheetStoreW texStoreW []
        (some ⟨[], [dualEntityW]⟩)).textures =
      [.Sprite 7 srW none none Mat4.identity] :=
  dual_component_sprite_precedence sheetStoreW texStoreW dualEntityW srW 8
    Mat4.identity sheetW ⟨(16, 16)⟩ rfl rfl rfl rfl rfl rfl (by decide)
    (by decide) (by decide)

end Flat2D
